import Mathlib

set_option maxRecDepth 100000

/-!
Shallow embedding of the slimoro generation orchestration subsystem.

The definitions below are translated from the TypeScript sources of the
repository:
- `apps/api/src/lib/client/body-shape-client.ts` (BMI computation and
  classification, structured prompt composition, the standalone
  `generateBodyShapeImages` orchestrator),
- `apps/api/src/lib/client/gemini-client.ts` (the `GeminiClient` class:
  `generateImage` retry loop, `generateBodyShapePrompt`, `calculateBMI`,
  `calculateIntensity`, `generateBodyShapeImages` class method),
- an unnamed sibling version of the Gemini client (here the `GeminiV2`
  namespace) that validates arguments and classifies retryable errors with
  `isRetryableError`,
- `apps/api/src/utils/location/location-resolver.ts` together with the
  location mapping constants,
- the body-shape POST route handler (no-change pass-through and dispatch to
  the orchestrator).

JavaScript numbers are modelled as rationals (`ℚ`), optional values as
`Option`, thrown exceptions as `Except String`, and the remote
`generateContent` call as an oracle `Nat → Except String GenResponse`
giving the outcome of each attempt.  Asynchronous sleeps during retry are
recorded as a list of requested delays (in milliseconds).
-/

namespace Slimoro

/-- `Subject` from `types/body-shape.ts`: height in cm and current weight in kg. -/
structure Subject where
  heightCm : ℚ
  currentWeightKg : ℚ
deriving DecidableEq, Repr

/-- `TargetWeight` from `types/body-shape.ts`: goal weight plus optional label. -/
structure TargetWeight where
  weightKg : ℚ
  label : Option String
deriving DecidableEq, Repr

/-- `BodyShapeOptions` from `types/body-shape.ts` (`returnMimeType`,
`preserveBackground`, `seed`).  The `strength` field is additionally read at
runtime by `GeminiClient.generateBodyShapePrompt` (`options?.strength ?? 0.7`),
so it is carried here as an optional field as well. -/
structure BodyShapeOptions where
  returnMimeType : Option String
  preserveBackground : Option Bool
  seed : Option Int
  strength : Option ℚ
deriving DecidableEq, Repr

/-- The all-absent options object (`{}` in the route handler's `options || {}`). -/
def BodyShapeOptions.empty : BodyShapeOptions :=
  { returnMimeType := none, preserveBackground := none, seed := none, strength := none }

/-- `GeneratedImage` from `types/body-shape.ts`. -/
structure GeneratedImage where
  label : Option String
  base64 : String
  mimeType : String
  width : Nat
  height : Nat
deriving DecidableEq, Repr

/-- Prefix test over character lists (used to model JavaScript substring
matching: `String.prototype.includes` and literal-alternative regexes). -/
def charsStartWith : List Char → List Char → Bool
  | [], _ => true
  | _ :: _, [] => false
  | a :: as, b :: bs => a == b && charsStartWith as bs

/-- Does the second list contain the first as a contiguous sublist? -/
def charsHaveSub (pat : List Char) : List Char → Bool
  | [] => pat.isEmpty
  | c :: rest => charsStartWith pat (c :: rest) || charsHaveSub pat rest

/-- `strHasSub s pat` models `s.includes(pat)` in JavaScript. -/
def strHasSub (s pat : String) : Bool :=
  charsHaveSub pat.data s.data

/-- ASCII lower-casing of a character (enough for the case-insensitive
`/(429|rate limit|quota|unavailable|timeout|ETIMEDOUT)/i` regex, whose
alternatives are ASCII). -/
def lowerChar (c : Char) : Char :=
  if 'A' ≤ c ∧ c ≤ 'Z' then Char.ofNat (c.toNat + 32) else c

/-- ASCII lower-casing of a string. -/
def lowerStr (s : String) : String :=
  ⟨s.data.map lowerChar⟩

/-- Whitespace test for `trimStr` (the whitespace characters relevant to the
region codes handled by the resolver). -/
def isSpaceChar (c : Char) : Bool :=
  c == ' ' || c == '\t' || c == '\n' || c == '\r'

/-- Drop leading characters satisfying `p`. -/
def dropWhileChars (p : Char → Bool) : List Char → List Char
  | [] => []
  | c :: cs => if p c then dropWhileChars p cs else c :: cs

/-- `trimStr s` models JavaScript `s.trim()` (leading and trailing
whitespace removed). -/
def trimStr (s : String) : String :=
  ⟨(dropWhileChars isSpaceChar ((dropWhileChars isSpaceChar s.data.reverse).reverse))⟩

/-- `inlineData` of a backend response part: base64 payload and the
backend-reported MIME type (both optional in the SDK response shape). -/
structure InlineData where
  data : Option String
  mimeType : Option String
deriving DecidableEq, Repr

/-- One `part` of a backend candidate's content. -/
structure ResponsePart where
  text : Option String
  inlineData : Option InlineData
deriving DecidableEq, Repr

/-- `content` of a backend candidate (`parts` is optional in the SDK). -/
structure ResponseContent where
  parts : Option (List ResponsePart)
deriving DecidableEq, Repr

/-- One candidate of a `generateContent` response. -/
structure Candidate where
  content : Option ResponseContent
deriving DecidableEq, Repr

/-- The `generateContent` response shape consumed by the clients. -/
structure GenResponse where
  candidates : Option (List Candidate)
deriving DecidableEq, Repr

namespace BodyShapeClient

/-- `calculateBMI` from `body-shape-client.ts`: weight / (height in m)²,
rounded to one decimal via `Math.round(bmi * 10) / 10`. -/
def calculateBMI (heightCm weightKg : ℚ) : ℚ :=
  let heightM := heightCm / 100
  let bmi := weightKg / (heightM * heightM)
  ((round (bmi * 10) : ℤ) : ℚ) / 10

/-- `getBMICategory` from `body-shape-client.ts`: the eight-band if-chain. -/
def getBMICategory (bmi : ℚ) : String :=
  if bmi < 16 then "Severe thinness"
  else if bmi < 17 then "Moderate thinness"
  else if bmi < 37/2 then "Mild thinness"
  else if bmi < 25 then "Normal weight"
  else if bmi < 30 then "Overweight"
  else if bmi < 35 then "Obesity, Class 1"
  else if bmi < 40 then "Obesity, Class 2"
  else "Obesity, Class 3"

/-- `WEIGHT_LOSS_DESCRIPTION` from `body-shape-client.ts`. -/
def WEIGHT_LOSS_DESCRIPTION : String := "Fat is reduced. The body becomes slimmer."

/-- `WEIGHT_GAIN_DESCRIPTION` from `body-shape-client.ts`. -/
def WEIGHT_GAIN_DESCRIPTION : String := "The body becomes fuller."

/-- `PRESERVATION_INSTRUCTION` from `body-shape-client.ts`. -/
def PRESERVATION_INSTRUCTION : String :=
  "No changes to any element other than his/her physique will be permitted."

/-- `createStructuredPrompt` from `body-shape-client.ts`: the
`STRUCTURED_PROMPT_TEMPLATE` with every placeholder substituted (the
`replaceTemplate` call is inlined here as concatenation; every placeholder of
the template occurs exactly once and is in the replacement map).  Numeric
values are rendered with `toString` on `ℚ`, abstracting JavaScript's decimal
number formatting, which no claim depends on. -/
def createStructuredPrompt (subject : Subject) (target : TargetWeight) : String :=
  let currentBMI := calculateBMI subject.heightCm subject.currentWeightKg
  let targetBMI := calculateBMI subject.heightCm target.weightKg
  let currentCategory := getBMICategory currentBMI
  let targetCategory := getBMICategory targetBMI
  let weightDiff := |target.weightKg - subject.currentWeightKg|
  let isWeightLoss := target.weightKg < subject.currentWeightKg
  let direction := if isWeightLoss then "lighter" else "heavier"
  let description := if isWeightLoss then WEIGHT_LOSS_DESCRIPTION else WEIGHT_GAIN_DESCRIPTION
  "<subject>\nHeight: " ++ toString subject.heightCm ++ " cm, Weight: " ++
    toString subject.currentWeightKg ++ " kg (BMI: " ++ toString currentBMI ++ ", " ++
    currentCategory ++ ")\n</subject>\n\n<transformation>\nTarget weight: " ++
    toString target.weightKg ++ " kg (Target BMI: " ++ toString targetBMI ++ ", " ++
    targetCategory ++ ")\nChange: " ++ toString weightDiff ++ " kg " ++ direction ++
    ". " ++ description ++
    "\n</transformation>\n\n<bmi_reference>\nBMI Categories: Severe thinness (<16.0), Moderate thinness (16.0-16.9), Mild thinness (17.0-18.49), Normal weight (18.5-24.9), Overweight (25.0-29.9), Obesity Class 1 (30.0-34.9), Obesity Class 2 (35.0-39.9), Obesity Class 3 (≥40.0)\n</bmi_reference>\n\n<constraints>\n" ++
    PRESERVATION_INSTRUCTION ++ "\n</constraints>"

/-- `generateBodyShapePrompt` from `body-shape-client.ts`: throws (here
`Except.error`) when the target weight equals the current weight, otherwise
returns the structured prompt. -/
def generateBodyShapePrompt (subject : Subject) (target : TargetWeight) :
    Except String String :=
  let weightDiff := target.weightKg - subject.currentWeightKg
  if weightDiff = 0 then
    Except.error "No body shape change needed when target weight equals current weight"
  else
    Except.ok (createStructuredPrompt subject target)

end BodyShapeClient

namespace GeminiClient

/-- `GeminiImageGenerationResult` from `gemini-client.ts`: success flag plus
optional base64 payload and optional error message. -/
structure GeminiImageGenerationResult where
  success : Bool
  imageBase64 : Option String
  error : Option String
deriving DecidableEq, Repr

/-- First part carrying an `inlineData` object (the loop
`for part of parts: if (part.inlineData) ...` in `generateImage`). -/
def firstInlineData : List ResponsePart → Option InlineData
  | [] => none
  | p :: rest =>
    match p.inlineData with
    | some d => some d
    | none => firstInlineData rest

/-- The body of one `try` block of `GeminiClient.generateImage`
(`gemini-client.ts`): throwing is modelled as `Except.error` with the thrown
message; a part with `inlineData` returns `inlineData.data` (which may itself
be absent). -/
def extractResponseImage (resp : GenResponse) : Except String (Option String) :=
  match resp.candidates with
  | none => Except.error "No candidates returned from Gemini API"
  | some [] => Except.error "No candidates returned from Gemini API"
  | some (c :: _) =>
    let parts := (c.content.bind ResponseContent.parts).getD []
    match firstInlineData parts with
    | some d => Except.ok d.data
    | none => Except.error "No image generated in response"

/-- The retry loop of `GeminiClient.generateImage` (`gemini-client.ts`),
starting at `attempt`.  `remote a` is the outcome of the `a`-th
`generateContent` call (`Except.error` models a thrown error).  Returns the
result together with the list of sleep delays requested (in ms).  The code
retries only when attempts remain (`attempt < maxRetries`) and the error
message contains `'429'`; the `"Max retries exceeded"` branch after the loop
is unreachable from `attempt = 0`.  Recursion is on `fuel`, the number of
retries still possible; the wrapper below instantiates
`fuel = maxRetries - attempt`, which the retry guard keeps invariant, so the
fuel never runs out while the guard holds. -/
def generateImageLoop (remote : Nat → Except String GenResponse)
    (maxRetries retryDelay : Nat) : Nat → Nat → GeminiImageGenerationResult × List Nat
  | attempt, fuel =>
    if attempt ≤ maxRetries then
      match (remote attempt).bind extractResponseImage with
      | Except.ok data => ({ success := true, imageBase64 := data, error := none }, [])
      | Except.error msg =>
        match fuel with
        | Nat.succ fuel' =>
          if decide (attempt < maxRetries) && strHasSub msg "429" then
            let r := generateImageLoop remote maxRetries retryDelay (attempt + 1) fuel'
            (r.1, retryDelay * 2 ^ attempt :: r.2)
          else ({ success := false, imageBase64 := none, error := some msg }, [])
        | 0 => ({ success := false, imageBase64 := none, error := some msg }, [])
    else ({ success := false, imageBase64 := none, error := some "Max retries exceeded" }, [])

/-- The retry loop entered at a given attempt with the correct fuel. -/
def generateImageFrom (remote : Nat → Except String GenResponse)
    (maxRetries retryDelay attempt : Nat) : GeminiImageGenerationResult × List Nat :=
  generateImageLoop remote maxRetries retryDelay attempt (maxRetries - attempt)

/-- `GeminiClient.generateImage`: the loop entered at attempt 0.  The class
defaults are `maxRetries = 2`, `retryDelay = 1000`. -/
def generateImage (remote : Nat → Except String GenResponse)
    (maxRetries retryDelay : Nat) : GeminiImageGenerationResult × List Nat :=
  generateImageFrom remote maxRetries retryDelay 0

/-- `GeminiClient.calculateBMI` from `gemini-client.ts` (no rounding). -/
def calculateBMI (heightCm weightKg : ℚ) : ℚ :=
  let heightM := heightCm / 100
  weightKg / (heightM * heightM)

/-- `GeminiClient.calculateIntensity` from `gemini-client.ts`:
`min(|ΔBMI| / 10, 1.0)`. -/
def calculateIntensity (currentBMI targetBMI : ℚ) : ℚ :=
  min (|targetBMI - currentBMI| / 10) 1

/-- `GeminiClient.generateBodyShapePrompt` from `gemini-client.ts`.  Returns
the transformation descriptor together with the safety modifier for the
branch selected by the BMI difference and intensity (the
`transformationType` variable of the source is set but never used in the
output string, so it is not modelled). -/
def transformationWording (bmiDiff intensity : ℚ) : String × String :=
  if |bmiDiff| < 1/2 then
    ("current body shape with minimal adjustments", "")
  else if bmiDiff < 0 then
    (if intensity > 8/10 then ("dramatically thinner and more toned", " in a healthy and realistic way")
     else if intensity > 1/2 then ("noticeably slimmer with visible weight loss", "")
     else ("slightly thinner with subtle weight loss", ""))
  else
    (if intensity > 8/10 then ("significantly fuller and heavier", " in a natural and healthy way")
     else if intensity > 1/2 then ("noticeably heavier with visible weight gain", "")
     else ("slightly fuller with moderate weight gain", ""))

/-- `GeminiClient.generateBodyShapePrompt` from `gemini-client.ts`: a total
function — it never throws, even when target and current weight coincide
(that case takes the `maintain` branch because `|ΔBMI| < 0.5`). -/
def generateBodyShapePrompt (subject : Subject) (target : TargetWeight)
    (options : Option BodyShapeOptions) : String :=
  let currentBMI := calculateBMI subject.heightCm subject.currentWeightKg
  let targetBMI := calculateBMI subject.heightCm target.weightKg
  let bmiDiff := targetBMI - currentBMI
  let intensity := calculateIntensity currentBMI targetBMI
  let strength := (options.bind BodyShapeOptions.strength).getD (7/10)
  let wording := transformationWording bmiDiff intensity
  let strengthModifier :=
    if strength > 8/10 then "dramatically"
    else if strength > 1/2 then "significantly"
    else "moderately"
  let backgroundInstruction :=
    if (options.bind BodyShapeOptions.preserveBackground).getD false then
      "Keep the background completely unchanged and preserve all environmental details."
    else
      "Maintain the overall scene composition while focusing on the body transformation."
  "Transform this person's body to appear " ++ strengthModifier ++ " " ++
    wording.1 ++ wording.2 ++
    ".\nThe transformation should look natural, realistic, and proportional to their body frame.\nMaintain facial features, clothing, and pose exactly as shown.\n" ++
    backgroundInstruction ++
    "\nEnsure the result appears as a natural photograph with consistent lighting and shadows."

/-- A `generationConfig` object (`{ seed }`) of the remote request. -/
structure GenerationConfig where
  seed : Option Int
deriving DecidableEq, Repr

/-- The `requestPayload` built per target by the class method
`GeminiClient.generateBodyShapeImages` (`gemini-client.ts`): note the truthy
test `bodyOptions?.seed ? { seed: bodyOptions.seed } : undefined`, which
drops a seed of `0`. -/
structure RequestPayload where
  model : String
  promptText : String
  imageMimeType : String
  imageData : String
  generationConfig : Option GenerationConfig
deriving DecidableEq, Repr

/-- The per-target request of the class method
`GeminiClient.generateBodyShapeImages`. -/
def bodyShapeRequestPayload (subject : Subject) (target : TargetWeight)
    (bodyOptions : BodyShapeOptions) (imageBase64 mimeType : String) : RequestPayload :=
  { model := "gemini-2.5-flash-image-preview",
    promptText := generateBodyShapePrompt subject target (some bodyOptions),
    imageMimeType := mimeType,
    imageData := imageBase64,
    generationConfig :=
      match bodyOptions.seed with
      | some s => if s ≠ 0 then some { seed := some s } else none
      | none => none }

end GeminiClient

namespace GeminiV2

/-- `extractFirstInlineImage` from the unnamed Gemini client variant: first
part whose `inlineData.data` is truthy (present and non-empty). -/
def extractFirstInlineImage (resp : GenResponse) : Option String :=
  match resp.candidates.getD [] with
  | [] => none
  | c :: _ =>
    let parts := (c.content.bind ResponseContent.parts).getD []
    firstTruthyData parts
where
  firstTruthyData : List ResponsePart → Option String
    | [] => none
    | p :: rest =>
      match p.inlineData.bind InlineData.data with
      | some d => if d ≠ "" then some d else firstTruthyData rest
      | none => firstTruthyData rest

/-- `isRetryableError` from the unnamed Gemini client variant: the
case-insensitive `/(429|rate limit|quota|unavailable|timeout|ETIMEDOUT)/i`
signature as literal-alternative substring matching. -/
def isRetryableError (msg : String) : Bool :=
  let m := lowerStr msg
  strHasSub m "429" || strHasSub m "rate limit" || strHasSub m "quota" ||
    strHasSub m "unavailable" || strHasSub m "timeout" || strHasSub m "etimedout"

/-- The body of one `try` block of the unnamed variant's `generateImage`:
either the first truthy inline image, or the thrown
`"No image generated in response"` error. -/
def imageOutcome (resp : GenResponse) : Except String String :=
  match extractFirstInlineImage resp with
  | some img => Except.ok img
  | none => Except.error "No image generated in response"

/-- The retry loop of the unnamed variant's `generateImage`, starting at
`attempt`: retry while `!isLastAttempt && isRetryableError(error)`, sleeping
`baseRetryDelayMs * 2^attempt + jitter` (jitter is
`floor(random * baseRetryDelayMs / 2)`, modelled as an oracle).  Recursion is
on `fuel`, the number of retries still possible; the wrapper below
instantiates `fuel = maxRetries - attempt`, which the retry guard keeps
invariant, so the fuel never runs out while the guard holds. -/
def generateImageLoop (remote : Nat → Except String GenResponse)
    (maxRetries baseRetryDelayMs : Nat) (jitter : Nat → Nat) :
    Nat → Nat → GeminiClient.GeminiImageGenerationResult × List Nat
  | attempt, fuel =>
    match (remote attempt).bind imageOutcome with
    | Except.ok img => ({ success := true, imageBase64 := some img, error := none }, [])
    | Except.error msg =>
      match fuel with
      | Nat.succ fuel' =>
        if decide (attempt < maxRetries) && isRetryableError msg then
          let r := generateImageLoop remote maxRetries baseRetryDelayMs jitter (attempt + 1) fuel'
          (r.1, (baseRetryDelayMs * 2 ^ attempt + jitter attempt) :: r.2)
        else ({ success := false, imageBase64 := none, error := some msg }, [])
      | 0 => ({ success := false, imageBase64 := none, error := some msg }, [])

/-- The unnamed variant's retry loop entered at a given attempt with the
correct fuel. -/
def generateImageFrom (remote : Nat → Except String GenResponse)
    (maxRetries baseRetryDelayMs : Nat) (jitter : Nat → Nat)
    (attempt : Nat) : GeminiClient.GeminiImageGenerationResult × List Nat :=
  generateImageLoop remote maxRetries baseRetryDelayMs jitter attempt (maxRetries - attempt)

/-- The unnamed variant's `generateImage`: fail fast on empty
prompt/image/mimeType, otherwise run the retry loop from attempt 0
(defaults `maxRetries = 2`, `baseRetryDelayMs = 1000`). -/
def generateImage (remote : Nat → Except String GenResponse)
    (maxRetries baseRetryDelayMs : Nat) (jitter : Nat → Nat)
    (prompt imageBase64 mimeType : String) :
    GeminiClient.GeminiImageGenerationResult × List Nat :=
  if prompt = "" ∨ imageBase64 = "" ∨ mimeType = "" then
    ({ success := false, imageBase64 := none,
       error := some "Invalid arguments: prompt/image/mimeType are required" }, [])
  else generateImageFrom remote maxRetries baseRetryDelayMs jitter 0

end GeminiV2

namespace BodyShapeClient

/-- JavaScript `a || b` on an optional string: the fallback is used when the
value is absent or empty (falsy). -/
def jsOrDefault (o : Option String) (d : String) : String :=
  match o with
  | some s => if s = "" then d else s
  | none => d

/-- The argument object passed by `generateBodyShapeImages`
(`body-shape-client.ts`) to `geminiClient.generateImage`: note
`generationConfig: bodyOptions?.seed !== undefined ? { seed: bodyOptions.seed } : undefined`,
which forwards any defined seed, including `0`. -/
structure GeminiImageCallArgs where
  prompt : String
  imageBase64 : String
  mimeType : String
  generationConfig : Option GeminiClient.GenerationConfig
deriving DecidableEq, Repr

/-- The call arguments built per target by `generateBodyShapeImages`
(`body-shape-client.ts`). -/
def geminiImageCallArgs (prompt imageBase64 mimeType : String)
    (bodyOptions : BodyShapeOptions) : GeminiImageCallArgs :=
  { prompt := prompt,
    imageBase64 := imageBase64,
    mimeType := mimeType,
    generationConfig :=
      if bodyOptions.seed ≠ none then some { seed := bodyOptions.seed } else none }

/-- One target's generation inside `generateBodyShapeImages`
(`body-shape-client.ts`): compose the prompt, call
`geminiClient.generateImage` (the class defaults `maxRetries = 2`,
`retryDelay = 1000`), and build a `GeneratedImage` on success; any thrown
error (prompt failure, `!success`, falsy `imageBase64`) is caught and yields
`null`, incrementing the failure count.  `remoteT a` is the outcome of this
target's `a`-th `generateContent` call. -/
def runTarget (remoteT : Nat → Except String GenResponse) (subject : Subject)
    (bodyOptions : BodyShapeOptions) (target : TargetWeight) : Option GeneratedImage :=
  match generateBodyShapePrompt subject target with
  | Except.error _ => none
  | Except.ok _prompt =>
    let r := (GeminiClient.generateImageFrom remoteT 2 1000 0).1
    match r.imageBase64 with
    | some s =>
      if r.success = true ∧ s ≠ "" then
        some { label := target.label, base64 := s,
               mimeType := jsOrDefault bodyOptions.returnMimeType "image/png",
               width := 1024, height := 1024 }
      else none
    | none => none

/-- `BodyShapeGenerationOptions` from `body-shape-client.ts`. -/
structure BodyShapeGenerationOptions where
  imageBase64 : String
  mimeType : String
  subject : Subject
  targets : List TargetWeight
  options : BodyShapeOptions
deriving DecidableEq, Repr

/-- The `metadata` object of `BodyShapeGenerationResult`. -/
structure GenerationMetadata where
  processingTimeMs : Nat
  confidence : ℚ
  model : String
  partialFailures : Option Nat
deriving DecidableEq, Repr

/-- `BodyShapeGenerationResult` from `body-shape-client.ts`. -/
structure BodyShapeGenerationResult where
  success : Bool
  images : Option (List GeneratedImage)
  metadata : Option GenerationMetadata
  error : Option String
deriving DecidableEq, Repr

/-- The per-target results of the `Promise.all` fan-out, in target order
(`targets.map(async target => ...)`).  `remote i a` is the outcome of target
`i`'s `a`-th `generateContent` call. -/
def targetOutcomes (remote : Nat → Nat → Except String GenResponse)
    (o : BodyShapeGenerationOptions) : List (Option GeneratedImage) :=
  o.targets.enum.map (fun it => runTarget (remote it.1) o.subject o.options it.2)

/-- `generateBodyShapeImages` from `body-shape-client.ts`: fail when any
target needs no change, otherwise fan out one generation per target, collect
the successes, and aggregate.  `elapsedMs` models the measured wall-clock
`Date.now() - startTime`. -/
def generateBodyShapeImages (remote : Nat → Nat → Except String GenResponse)
    (o : BodyShapeGenerationOptions) (elapsedMs : Nat) : BodyShapeGenerationResult :=
  if (o.targets.filter (fun t => t.weightKg = o.subject.currentWeightKg)).length > 0 then
    { success := false, images := none, metadata := none,
      error := some "Body shape generation is not needed when target weight equals current weight" }
  else
    let generatedImages := targetOutcomes remote o
    let successfulImages := generatedImages.filterMap id
    let failedCount := (generatedImages.filter Option.isNone).length
    if successfulImages.length = 0 then
      { success := false, images := none, metadata := none,
        error := some "All image generations failed" }
    else
      { success := true,
        images := some successfulImages,
        metadata := some
          { processingTimeMs := elapsedMs,
            confidence :=
              max (8/10 : ℚ)
                (1 - ((failedCount : ℚ) / (o.targets.length : ℚ)) * (2/10)),
            model := "gemini-2.5-flash-image-preview",
            partialFailures := if failedCount > 0 then some failedCount else none },
        error := none }

end BodyShapeClient

namespace Route

/-- The JSON body and status produced by the body-shape POST handler (the
part after validation and file conversion). -/
structure RouteMetadata where
  processingTimeMs : Nat
  confidence : ℚ
  model : String
  note : Option String
  partialFailures : Option Nat
deriving DecidableEq, Repr

/-- The response of the body-shape POST handler. -/
structure RouteResponse where
  status : Nat
  success : Bool
  images : Option (List GeneratedImage)
  metadata : Option RouteMetadata
  code : Option String
  message : Option String
deriving DecidableEq, Repr

/-- The body-shape POST handler from the no-change check onward (after
validation and base64 conversion): when any target's weight equals the
current weight, the original image is returned for the no-change targets
only (tagged `model: "original-image"`), without invoking any generation;
otherwise the orchestrator is invoked and its result forwarded. -/
def bodyShapePostHandler (remote : Nat → Nat → Except String GenResponse)
    (base64 mimeType : String) (subject : Subject) (targets : List TargetWeight)
    (options : Option BodyShapeOptions) (elapsedMs : Nat) : RouteResponse :=
  let noChangeTargets := targets.filter (fun t => t.weightKg = subject.currentWeightKg)
  if noChangeTargets.length > 0 then
    let outputMimeType :=
      BodyShapeClient.jsOrDefault (options.bind BodyShapeOptions.returnMimeType) "image/png"
    let originalImages := noChangeTargets.map (fun t =>
      ({ label := t.label, base64 := base64, mimeType := outputMimeType,
         width := 1024, height := 1024 } : GeneratedImage))
    let passMeta : RouteMetadata :=
      { processingTimeMs := 0, confidence := 1,
        model := "original-image",
        note := some "No body shape change needed - returning original image",
        partialFailures := none }
    { status := 200, success := true, images := some originalImages,
      metadata := some passMeta, code := none, message := none }
  else
    let result := BodyShapeClient.generateBodyShapeImages remote
      { imageBase64 := base64, mimeType := mimeType, subject := subject,
        targets := targets, options := options.getD BodyShapeOptions.empty } elapsedMs
    if result.success = false then
      { status := 500, success := false, images := none, metadata := none,
        code := some "GENERATION_ERROR",
        message := some ((result.error).getD "Failed to generate body shape images") }
    else
      { status := 200, success := true, images := result.images,
        metadata := result.metadata.map (fun m =>
          { processingTimeMs := m.processingTimeMs, confidence := m.confidence,
            model := m.model, note := none, partialFailures := m.partialFailures }),
        code := none, message := none }

end Route

namespace LocationResolver

/-- `SUPPORTED_LOCATIONS` from `location-mappings.ts`. -/
def SUPPORTED_LOCATIONS : List String :=
  ["us-central1", "us-east1", "us-east4", "us-east5", "us-south1", "us-west1",
   "us-west4", "asia-northeast1", "asia-northeast3", "asia-southeast1",
   "europe-west1", "europe-west2", "europe-west3", "europe-west4"]

/-- `DEFAULT_LOCATION` from `location-mappings.ts`. -/
def DEFAULT_LOCATION : String := "us-central1"

/-- `COLO_TO_VERTEX_REGION` from `location-mappings.ts`. -/
def COLO_TO_VERTEX_REGION : List (String × String) :=
  [("NRT", "asia-northeast1"), ("KIX", "asia-northeast1"), ("ICN", "asia-northeast1"),
   ("TPE", "asia-northeast1"),
   ("SIN", "asia-southeast1"), ("KUL", "asia-southeast1"), ("BKK", "asia-southeast1"),
   ("MNL", "asia-southeast1"),
   ("DFW", "us-central1"), ("ORD", "us-central1"), ("DEN", "us-central1"),
   ("MCI", "us-central1"),
   ("LAX", "us-west1"), ("SJC", "us-west1"), ("SEA", "us-west1"), ("PDX", "us-west1"),
   ("IAD", "us-east1"), ("EWR", "us-east1"), ("BOS", "us-east1"), ("ATL", "us-east1"),
   ("LHR", "europe-west2"), ("MAN", "europe-west2"), ("DUB", "europe-west2"),
   ("FRA", "europe-west3"), ("MUC", "europe-west3"), ("VIE", "europe-west3"),
   ("ZUR", "europe-west3"),
   ("AMS", "europe-west4"), ("CPH", "europe-west4"), ("OSL", "europe-west4")]

/-- `COUNTRY_TO_VERTEX_REGION` from `location-mappings.ts`. -/
def COUNTRY_TO_VERTEX_REGION : List (String × String) :=
  [("JP", "asia-northeast1"), ("KR", "asia-northeast1"), ("TW", "asia-northeast1"),
   ("HK", "asia-northeast1"), ("MO", "asia-northeast1"),
   ("SG", "asia-southeast1"), ("MY", "asia-southeast1"), ("TH", "asia-southeast1"),
   ("ID", "asia-southeast1"), ("PH", "asia-southeast1"), ("VN", "asia-southeast1"),
   ("US", "us-central1"), ("CA", "us-central1"), ("MX", "us-central1"),
   ("GB", "europe-west2"), ("IE", "europe-west2"), ("IS", "europe-west2"),
   ("DE", "europe-west3"), ("AT", "europe-west3"), ("CH", "europe-west3"),
   ("CZ", "europe-west3"), ("PL", "europe-west3"),
   ("NL", "europe-west4"), ("BE", "europe-west4"), ("DK", "europe-west4"),
   ("NO", "europe-west4"), ("SE", "europe-west4"), ("FI", "europe-west4"),
   ("FR", "europe-west1"), ("ES", "europe-west1"), ("PT", "europe-west1"),
   ("IT", "europe-west1")]

/-- `CONTINENT_TO_VERTEX_REGION` from `location-mappings.ts`. -/
def CONTINENT_TO_VERTEX_REGION : List (String × String) :=
  [("AS", "asia-northeast1"), ("NA", "us-central1"), ("EU", "europe-west4"),
   ("SA", "us-central1"), ("AF", "europe-west1"), ("OC", "asia-southeast1")]

/-- The Cloudflare `cf` geography object, restricted to the fields the
resolver reads for resolution (`country`, `colo`, `continent`; the others are
only logged).  The same shape is used for the `geographicInfo` snapshot of
the result. -/
structure CloudflareCfObject where
  country : Option String
  colo : Option String
  continent : Option String
deriving DecidableEq, Repr

/-- A request, which may carry a Cloudflare `cf` object. -/
structure RequestLike where
  cf : Option CloudflareCfObject
deriving DecidableEq, Repr

/-- `LocationResolutionResult` from `utils/location/types.ts`
(`resolutionMethod` is one of "explicit", "colo", "country", "continent",
"default"). -/
structure LocationResolutionResult where
  location : String
  resolutionMethod : String
  geographicInfo : Option CloudflareCfObject
deriving DecidableEq, Repr

/-- `LocationResolutionOptions` from `utils/location/types.ts` (`debug` only
controls logging and does not affect resolution). -/
structure LocationResolutionOptions where
  explicitLocation : Option String
  request : Option RequestLike
  debug : Option Bool
deriving DecidableEq, Repr

/-- Models `key && TABLE[key]` in JavaScript: the key must be truthy
(present, non-empty) and mapped; every region value in the tables is a
non-empty literal, so the value's own truthiness test always passes. -/
def truthyLookup (table : List (String × String)) (key : Option String) : Option String :=
  match key with
  | some k => if k = "" then none else table.lookup k
  | none => none

/-- `LocationResolver.detectLocationFromCloudflare`: colo, then country, then
continent, each recording its `resolutionMethod` and the geographic
snapshot. -/
def detectLocationFromCloudflare (request : RequestLike) :
    Option LocationResolutionResult :=
  match request.cf with
  | none => none
  | some cf =>
    let geo : Option CloudflareCfObject :=
      some { country := cf.country, colo := cf.colo, continent := cf.continent }
    match truthyLookup COLO_TO_VERTEX_REGION cf.colo with
    | some r => some { location := r, resolutionMethod := "colo", geographicInfo := geo }
    | none =>
      match truthyLookup COUNTRY_TO_VERTEX_REGION cf.country with
      | some r => some { location := r, resolutionMethod := "country", geographicInfo := geo }
      | none =>
        match truthyLookup CONTINENT_TO_VERTEX_REGION cf.continent with
        | some r => some { location := r, resolutionMethod := "continent", geographicInfo := geo }
        | none => none

/-- `LocationResolver.validateLocation`: throws (here `Except.error`) for a
location outside the allow-list, with a message naming the offending value
and listing the supported values. -/
def validateLocation (location : String) : Except String String :=
  if SUPPORTED_LOCATIONS.contains location then Except.ok location
  else
    Except.error ("Invalid Google Cloud location: " ++ location ++
      ". Supported locations: " ++ String.intercalate ", " SUPPORTED_LOCATIONS)

/-- Steps 2–3 of `LocationResolver.resolveOptimalLocation`: geography-based
detection, then the fixed default. -/
def resolveFromGeography (request : Option RequestLike) : LocationResolutionResult :=
  match request with
  | some req =>
    match detectLocationFromCloudflare req with
    | some r => r
    | none =>
      { location := DEFAULT_LOCATION, resolutionMethod := "default", geographicInfo := none }
  | none =>
    { location := DEFAULT_LOCATION, resolutionMethod := "default", geographicInfo := none }

/-- `LocationResolver.resolveOptimalLocation`: a non-blank explicit location
is validated and wins; otherwise geography, then the default. -/
def resolveOptimalLocation (options : LocationResolutionOptions) :
    Except String LocationResolutionResult :=
  match options.explicitLocation with
  | some s =>
    if trimStr s ≠ "" then
      (validateLocation s).map (fun v =>
        { location := v, resolutionMethod := "explicit", geographicInfo := none })
    else Except.ok (resolveFromGeography options.request)
  | none => Except.ok (resolveFromGeography options.request)

end LocationResolver

/-- Remote oracle for the C4 witness: three distinct retryable errors. -/
def c4remote : Nat → Except String GenResponse :=
  fun a => Except.error (if a = 0 then "429 one" else if a = 1 then "429 two" else "429 three")

/-- A response with an inline image, used by the C5 counterexample: the
second and later attempts would succeed if the loop retried. -/
def c5goodPart : ResponsePart :=
  { text := none,
    inlineData := some { data := some "generated-img", mimeType := some "image/png" } }

/-- The backend response wrapping `c5goodPart`. -/
def c5goodResponse : GenResponse :=
  { candidates := some [{ content := some { parts := some [c5goodPart] } }] }

/-- Remote oracle for the C5 counterexample: the first call throws a quota
error (no '429' in the message), every later call succeeds. -/
def c5remote : Nat → Except String GenResponse :=
  fun a => if a = 0 then Except.error "quota exceeded while generating" else Except.ok c5goodResponse

/-- Subject shared by the concrete orchestration witnesses: 170 cm, 70 kg. -/
def c1subject : Subject := { heightCm := 170, currentWeightKg := 70 }

/-- Two change targets (60 kg and 80 kg) with labels. -/
def c1opts : BodyShapeClient.BodyShapeGenerationOptions :=
  { imageBase64 := "input-b64", mimeType := "image/jpeg", subject := c1subject,
    targets := [{ weightKg := 60, label := some "slim" },
                { weightKg := 80, label := some "big" }],
    options := BodyShapeOptions.empty }

/-- Remote oracle for the C1 witness: target 0 always succeeds, target 1
always fails with a non-retryable error. -/
def c1remote : Nat → Nat → Except String GenResponse :=
  fun i _ => if i = 0 then Except.ok c5goodResponse else Except.error "boom"

/-- Remote oracle for the C2 witness: every call of every target fails. -/
def c2remote : Nat → Nat → Except String GenResponse :=
  fun _ _ => Except.error "boom"

/-- Targets mixing one change target (60 kg, "slim") and one no-change
target (70 kg, "same") for the C3 counterexample. -/
def c3targets : List TargetWeight :=
  [{ weightKg := 60, label := some "slim" }, { weightKg := 70, label := some "same" }]

/-- Remote oracle for the C3 counterexample: every generation would
succeed. -/
def c3remoteOk : Nat → Nat → Except String GenResponse :=
  fun _ _ => Except.ok c5goodResponse

/-- Backend part reporting `mimeType: "image/webp"` for the generated inline
image (the C9 failing input). -/
def c9webpPart : ResponsePart :=
  { text := none,
    inlineData := some { data := some "generated-img", mimeType := some "image/webp" } }

/-- The backend response wrapping `c9webpPart`. -/
def c9webpResponse : GenResponse :=
  { candidates := some [{ content := some { parts := some [c9webpPart] } }] }

/-- Remote oracle for C9: the backend always returns the webp-tagged image. -/
def c9remote : Nat → Nat → Except String GenResponse :=
  fun _ _ => Except.ok c9webpResponse

/-- One change target with `returnMimeType: "image/png"` requested (C9). -/
def c9opts : BodyShapeClient.BodyShapeGenerationOptions :=
  { imageBase64 := "input-b64", mimeType := "image/jpeg", subject := c1subject,
    targets := [{ weightKg := 60, label := some "slim" }],
    options := { returnMimeType := some "image/png", preserveBackground := none,
                 seed := none, strength := none } }

end Slimoro

namespace Slimoro

/-- C6: `getBMICategory` maps every BMI into exactly one of the eight fixed
bands, with inclusive lower and exclusive upper boundaries and an open-ended
top bucket (so 16.0, 18.5, 25.0 and 30.0 land in the upper bucket), and
`calculateBMI` computes weight over squared height in metres up to the
documented one-decimal rounding (error at most 1/20). -/
theorem C6_bmi_classification :
    (∀ bmi : ℚ,
      (BodyShapeClient.getBMICategory bmi = "Severe thinness" ↔ bmi < 16) ∧
      (BodyShapeClient.getBMICategory bmi = "Moderate thinness" ↔ 16 ≤ bmi ∧ bmi < 17) ∧
      (BodyShapeClient.getBMICategory bmi = "Mild thinness" ↔ 17 ≤ bmi ∧ bmi < 37/2) ∧
      (BodyShapeClient.getBMICategory bmi = "Normal weight" ↔ 37/2 ≤ bmi ∧ bmi < 25) ∧
      (BodyShapeClient.getBMICategory bmi = "Overweight" ↔ 25 ≤ bmi ∧ bmi < 30) ∧
      (BodyShapeClient.getBMICategory bmi = "Obesity, Class 1" ↔ 30 ≤ bmi ∧ bmi < 35) ∧
      (BodyShapeClient.getBMICategory bmi = "Obesity, Class 2" ↔ 35 ≤ bmi ∧ bmi < 40) ∧
      (BodyShapeClient.getBMICategory bmi = "Obesity, Class 3" ↔ 40 ≤ bmi)) ∧
    BodyShapeClient.getBMICategory 16 = "Moderate thinness" ∧
    BodyShapeClient.getBMICategory (37/2) = "Normal weight" ∧
    BodyShapeClient.getBMICategory 25 = "Overweight" ∧
    BodyShapeClient.getBMICategory 30 = "Obesity, Class 1" ∧
    ∀ h w : ℚ, 0 < h →
      |BodyShapeClient.calculateBMI h w - w / ((h / 100) * (h / 100))| ≤ 1/20 := by
  refine ⟨?_, by norm_num [BodyShapeClient.getBMICategory],
    by norm_num [BodyShapeClient.getBMICategory],
    by norm_num [BodyShapeClient.getBMICategory],
    by norm_num [BodyShapeClient.getBMICategory], ?_⟩
  · intro bmi
    unfold BodyShapeClient.getBMICategory
    split_ifs with h1 h2 h3 h4 h5 h6 h7 <;>
      refine ⟨?_, ?_, ?_, ?_, ?_, ?_, ?_, ?_⟩ <;>
      constructor <;> intro hx <;>
      first
        | rfl
        | (constructor <;> linarith)
        | linarith
        | (simp at hx)
        | (exfalso; obtain ⟨a, b⟩ := hx; linarith)
        | (exfalso; linarith)
  · intro h w _
    simp only [BodyShapeClient.calculateBMI]
    have hr := abs_sub_round ((w / (h / 100 * (h / 100))) * 10)
    rw [abs_le] at hr ⊢
    constructor <;> linarith [hr.1, hr.2]

/-- Helper: if every attempt from `attempt` through `maxRetries` fails with a
retryable ('429') error, the retry loop surfaces the error message of attempt
`maxRetries` (the last one), sleeping before every retried attempt. -/
theorem generateImageLoop_all_retryable_fail
    (remote : Nat → Except String GenResponse) (msgs : Nat → String)
    (maxRetries retryDelay : Nat) :
    ∀ fuel attempt, maxRetries - attempt = fuel → attempt ≤ maxRetries →
    (∀ a, attempt ≤ a → a ≤ maxRetries →
      (remote a).bind GeminiClient.extractResponseImage = Except.error (msgs a)) →
    (∀ a, attempt ≤ a → a ≤ maxRetries → strHasSub (msgs a) "429" = true) →
    (GeminiClient.generateImageLoop remote maxRetries retryDelay attempt fuel).1 =
      { success := false, imageBase64 := none, error := some (msgs maxRetries) } := by
  intro fuel
  induction fuel with
  | zero =>
    intro attempt hsub hle hfail hretry
    have heq : attempt = maxRetries := by omega
    rw [GeminiClient.generateImageLoop, if_pos hle, hfail attempt le_rfl hle]
    subst heq
    rfl
  | succ fuel' ih =>
    intro attempt hsub hle hfail hretry
    have hlt : attempt < maxRetries := by omega
    have hc : (decide (attempt < maxRetries) && strHasSub (msgs attempt) "429") = true := by
      rw [hretry attempt le_rfl hle]
      simp [hlt]
    rw [GeminiClient.generateImageLoop, if_pos hle, hfail attempt le_rfl hle]
    dsimp only
    rw [hc]
    exact ih (attempt + 1) (by omega) (by omega)
      (fun a h1 h2 => hfail a (by omega) h2)
      (fun a h1 h2 => hretry a (by omega) h2)

/-- C6 witness: the classification and rounding facts at concrete inputs
(BMI 24.2 for 170 cm / 70 kg is `Normal weight`). -/
theorem C6_bmi_classification_witness :
    BodyShapeClient.getBMICategory (121/5) = "Normal weight" ∧
    (0 : ℚ) < 170 ∧
    |BodyShapeClient.calculateBMI 170 70 - 70 / ((170 / 100) * (170 / 100))| ≤ 1/20 := by
  refine ⟨?_, by norm_num, C6_bmi_classification.2.2.2.2.2 170 70 (by norm_num)⟩
  exact ((C6_bmi_classification.1 (121/5)).2.2.2.1).2 (by norm_num)

/-- C4: when every attempt of `GeminiClient.generateImage` fails with a
retryable ('429') error, the returned failure result's `error` field equals
the message of the last underlying error (the one of attempt `maxRetries`),
not a synthetic generic "max retries" message. -/
theorem C4_last_error_surfaced (remote : Nat → Except String GenResponse)
    (msgs : Nat → String) (maxRetries retryDelay : Nat)
    (hfail : ∀ a, a ≤ maxRetries →
      (remote a).bind GeminiClient.extractResponseImage = Except.error (msgs a))
    (hretry : ∀ a, a ≤ maxRetries → strHasSub (msgs a) "429" = true) :
    (GeminiClient.generateImage remote maxRetries retryDelay).1 =
      { success := false, imageBase64 := none, error := some (msgs maxRetries) } :=
  generateImageLoop_all_retryable_fail remote msgs maxRetries retryDelay
    (maxRetries - 0) 0 rfl (Nat.zero_le _)
    (fun a _ h2 => hfail a h2) (fun a _ h2 => hretry a h2)

/-- C4 witness: with `maxRetries = 2` and attempts failing with "429 one",
"429 two", "429 three", the surfaced error is "429 three" (the last one). -/
theorem C4_last_error_surfaced_witness :
    (GeminiClient.generateImage c4remote 2 1000).1 =
      { success := false, imageBase64 := none, error := some "429 three" } :=
  C4_last_error_surfaced c4remote
    (fun a => if a = 0 then "429 one" else if a = 1 then "429 two" else "429 three") 2 1000
    (fun _ _ => rfl)
    (fun a ha => by interval_cases a <;> rfl)

/-- C5 counterexample: the message "quota exceeded while generating" matches
the rate-limit/quota/timeout/unavailable signature (`isRetryableError`), the
next attempt would succeed, and attempts remain (`maxRetries = 2`) — yet
`GeminiClient.generateImage` in `gemini-client.ts` surfaces the error
immediately, with no retry and no sleep, because that loop retries only on
messages containing '429'. -/
theorem C5_counterexample :
    GeminiV2.isRetryableError "quota exceeded while generating" = true ∧
    (GeminiClient.generateImageFrom c5remote 2 1000 1).1.success = true ∧
    GeminiClient.generateImage c5remote 2 1000 =
      ({ success := false, imageBase64 := none,
         error := some "quota exceeded while generating" }, []) :=
  ⟨rfl, rfl, rfl⟩

/-- C5 amended: in `gemini-client.ts`, an error raised inside the retry loop
is retried (when attempts remain, after sleeping `retryDelay * 2^attempt`)
iff its message contains '429'; in the unnamed client variant, iff it matches
`isRetryableError` (429 / rate limit / quota / unavailable / timeout /
ETIMEDOUT, case-insensitive), sleeping `baseDelay * 2^attempt` plus jitter.
Any error not matching the respective test is surfaced immediately with no
retry and no sleep. -/
theorem C5_retry_classification (remote remote2 : Nat → Except String GenResponse)
    (maxRetries retryDelay baseDelay attempt : Nat) (jitter : Nat → Nat)
    (msg msg2 : String) (hatt : attempt ≤ maxRetries)
    (hout : (remote attempt).bind GeminiClient.extractResponseImage = Except.error msg)
    (hout2 : (remote2 attempt).bind GeminiV2.imageOutcome = Except.error msg2) :
    (GeminiClient.generateImageFrom remote maxRetries retryDelay attempt =
      if attempt < maxRetries ∧ strHasSub msg "429" = true then
        ((GeminiClient.generateImageFrom remote maxRetries retryDelay (attempt + 1)).1,
          retryDelay * 2 ^ attempt ::
            (GeminiClient.generateImageFrom remote maxRetries retryDelay (attempt + 1)).2)
      else ({ success := false, imageBase64 := none, error := some msg }, [])) ∧
    (GeminiV2.generateImageFrom remote2 maxRetries baseDelay jitter attempt =
      if attempt < maxRetries ∧ GeminiV2.isRetryableError msg2 = true then
        ((GeminiV2.generateImageFrom remote2 maxRetries baseDelay jitter (attempt + 1)).1,
          (baseDelay * 2 ^ attempt + jitter attempt) ::
            (GeminiV2.generateImageFrom remote2 maxRetries baseDelay jitter (attempt + 1)).2)
      else ({ success := false, imageBase64 := none, error := some msg2 }, [])) := by
  constructor
  · by_cases hc : attempt < maxRetries ∧ strHasSub msg "429" = true
    · obtain ⟨h1, h2⟩ := hc
      rw [if_pos ⟨h1, h2⟩]
      have hfuel : maxRetries - attempt = Nat.succ (maxRetries - (attempt + 1)) := by omega
      have hcond : (decide (attempt < maxRetries) && strHasSub msg "429") = true := by
        simp [h1, h2]
      rw [GeminiClient.generateImageFrom, GeminiClient.generateImageLoop, if_pos hatt, hout]
      dsimp only
      rw [hfuel]
      dsimp only
      rw [if_pos hcond]
      rfl
    · rw [if_neg hc]
      rw [GeminiClient.generateImageFrom, GeminiClient.generateImageLoop, if_pos hatt, hout]
      dsimp only
      rcases Nat.lt_or_ge attempt maxRetries with h1 | h1
      · have h2 : strHasSub msg "429" = false := by
          rcases Bool.eq_false_or_eq_true (strHasSub msg "429") with h | h
          · exact absurd ⟨h1, h⟩ hc
          · exact h
        have hfuel : maxRetries - attempt = Nat.succ (maxRetries - (attempt + 1)) := by omega
        rw [hfuel]
        dsimp only
        rw [if_neg (by simp [h2])]
      · have hfuel : maxRetries - attempt = 0 := by omega
        rw [hfuel]
  · by_cases hc : attempt < maxRetries ∧ GeminiV2.isRetryableError msg2 = true
    · obtain ⟨h1, h2⟩ := hc
      rw [if_pos ⟨h1, h2⟩]
      have hfuel : maxRetries - attempt = Nat.succ (maxRetries - (attempt + 1)) := by omega
      have hcond : (decide (attempt < maxRetries) && GeminiV2.isRetryableError msg2) = true := by
        simp [h1, h2]
      rw [GeminiV2.generateImageFrom, GeminiV2.generateImageLoop, hout2]
      dsimp only
      rw [hfuel]
      dsimp only
      rw [if_pos hcond]
      rfl
    · rw [if_neg hc]
      rw [GeminiV2.generateImageFrom, GeminiV2.generateImageLoop, hout2]
      dsimp only
      rcases Nat.lt_or_ge attempt maxRetries with h1 | h1
      · have h2 : GeminiV2.isRetryableError msg2 = false := by
          rcases Bool.eq_false_or_eq_true (GeminiV2.isRetryableError msg2) with h | h
          · exact absurd ⟨h1, h⟩ hc
          · exact h
        have hfuel : maxRetries - attempt = Nat.succ (maxRetries - (attempt + 1)) := by omega
        rw [hfuel]
        dsimp only
        rw [if_neg (by simp [h2])]
      · have hfuel : maxRetries - attempt = 0 := by omega
        rw [hfuel]

/-- C5 amended witness: at `attempt = 0`, `maxRetries = 2`, a '429' error is
retried with a 1000 ms sleep, and a non-matching error is surfaced at once. -/
theorem C5_retry_classification_witness :
    GeminiClient.generateImageFrom c4remote 2 1000 0 =
      ((GeminiClient.generateImageFrom c4remote 2 1000 1).1,
        1000 * 2 ^ 0 :: (GeminiClient.generateImageFrom c4remote 2 1000 1).2) ∧
    GeminiV2.generateImageFrom c5remote 2 1000 (fun _ => 7) 0 =
      ((GeminiV2.generateImageFrom c5remote 2 1000 (fun _ => 7) 1).1,
        (1000 * 2 ^ 0 + 7) :: (GeminiV2.generateImageFrom c5remote 2 1000 (fun _ => 7) 1).2) := by
  have h := C5_retry_classification c4remote c5remote 2 1000 1000 0 (fun _ => 7)
    "429 one" "quota exceeded while generating" (by omega) rfl rfl
  constructor
  · rw [h.1, if_pos (by exact ⟨by omega, rfl⟩)]
  · rw [h.2, if_pos (by exact ⟨by omega, rfl⟩)]

/-- C1: whenever no target is a no-change target and at least one per-target
generation succeeds, `generateBodyShapeImages` returns `success := true`, the
successful images in target order, `processingTimeMs` as measured,
`confidence = max(0.8, 1 - (failedCount / targetCount) * 0.2)`, the fixed
model identifier, and `partialFailures` present exactly when
`failedCount > 0`. -/
theorem C1_partial_success (remote : Nat → Nat → Except String GenResponse)
    (o : BodyShapeClient.BodyShapeGenerationOptions) (elapsedMs : Nat)
    (hno : (o.targets.filter (fun t => t.weightKg = o.subject.currentWeightKg)).length = 0)
    (hsucc : ((BodyShapeClient.targetOutcomes remote o).filterMap id).length ≠ 0) :
    BodyShapeClient.generateBodyShapeImages remote o elapsedMs =
      { success := true,
        images := some ((BodyShapeClient.targetOutcomes remote o).filterMap id),
        metadata := some
          { processingTimeMs := elapsedMs,
            confidence := max (8/10 : ℚ)
              (1 - ((((BodyShapeClient.targetOutcomes remote o).filter Option.isNone).length : ℚ) /
                (o.targets.length : ℚ)) * (2/10)),
            model := "gemini-2.5-flash-image-preview",
            partialFailures :=
              if ((BodyShapeClient.targetOutcomes remote o).filter Option.isNone).length > 0 then
                some (((BodyShapeClient.targetOutcomes remote o).filter Option.isNone).length)
              else none },
        error := none } := by
  unfold BodyShapeClient.generateBodyShapeImages
  rw [if_neg (by omega)]
  dsimp only
  rw [if_neg hsucc]

/-- C1 witness: two targets, one always fails and one always succeeds —
`success := true`, one image, `partialFailures = 1`, `confidence = 0.9`. -/
theorem C1_partial_success_witness :
    BodyShapeClient.generateBodyShapeImages c1remote c1opts 5 =
      { success := true,
        images := some [{ label := some "slim", base64 := "generated-img",
                          mimeType := "image/png", width := 1024, height := 1024 }],
        metadata := some
          { processingTimeMs := 5, confidence := 9/10,
            model := "gemini-2.5-flash-image-preview", partialFailures := some 1 },
        error := none } :=
  (C1_partial_success c1remote c1opts 5 (by with_unfolding_all rfl)
    (by with_unfolding_all decide)).trans (by with_unfolding_all rfl)

/-- C2: whenever no target is a no-change target and every per-target
generation fails, `generateBodyShapeImages` returns `success := false` with
the aggregate "All image generations failed" error and no partial result
(no `images`, no `metadata`). -/
theorem C2_all_failed (remote : Nat → Nat → Except String GenResponse)
    (o : BodyShapeClient.BodyShapeGenerationOptions) (elapsedMs : Nat)
    (hno : (o.targets.filter (fun t => t.weightKg = o.subject.currentWeightKg)).length = 0)
    (hall : (BodyShapeClient.targetOutcomes remote o).filterMap id = []) :
    BodyShapeClient.generateBodyShapeImages remote o elapsedMs =
      { success := false, images := none, metadata := none,
        error := some "All image generations failed" } := by
  unfold BodyShapeClient.generateBodyShapeImages
  rw [if_neg (by omega)]
  dsimp only
  rw [if_pos (by rw [hall]; rfl)]

/-- C2 witness: two change targets whose generations all fail — the result is
the aggregate failure with no images and no metadata. -/
theorem C2_all_failed_witness :
    BodyShapeClient.generateBodyShapeImages c2remote c1opts 5 =
      { success := false, images := none, metadata := none,
        error := some "All image generations failed" } :=
  C2_all_failed c2remote c1opts 5 (by with_unfolding_all rfl) (by with_unfolding_all rfl)

/-- C3 counterexample: with one change target ("slim") and one no-change
target ("same"), and an adapter that would succeed on every call, the route
handler returns ONLY the pass-through image for the no-change target
(tagged `model: "original-image"`) — no prompt is composed and no generation
is invoked for the change target, and no generated image appears — while the
standalone orchestrator rejects the whole request.  This refutes the claimed
mixing of pass-through and generated results. -/
theorem C3_counterexample :
    Route.bodyShapePostHandler c3remoteOk "input-b64" "image/jpeg" c1subject c3targets none 5 =
      { status := 200, success := true,
        images := some [{ label := some "same", base64 := "input-b64",
                          mimeType := "image/png", width := 1024, height := 1024 }],
        metadata := some
          { processingTimeMs := 0, confidence := 1, model := "original-image",
            note := some "No body shape change needed - returning original image",
            partialFailures := none },
        code := none, message := none } ∧
    BodyShapeClient.generateBodyShapeImages c3remoteOk
      { imageBase64 := "input-b64", mimeType := "image/jpeg", subject := c1subject,
        targets := c3targets, options := BodyShapeOptions.empty } 5 =
      { success := false, images := none, metadata := none,
        error := some "Body shape generation is not needed when target weight equals current weight" } := by
  constructor <;> with_unfolding_all rfl

/-- C3 amended: whenever the target set contains at least one no-change
target, the route handler short-circuits: it returns pass-through images for
the no-change targets only (model "original-image"), its response is
independent of the generation oracle and of elapsed time (no generation is
invoked for any change target), and the standalone `generateBodyShapeImages`
rejects the whole request with the no-change error. -/
theorem C3_no_change_short_circuit (remote remote2 : Nat → Nat → Except String GenResponse)
    (base64 mimeType : String) (subject : Subject) (targets : List TargetWeight)
    (options : Option BodyShapeOptions) (elapsedMs elapsedMs2 : Nat)
    (hmix : (targets.filter (fun t => t.weightKg = subject.currentWeightKg)).length > 0) :
    Route.bodyShapePostHandler remote base64 mimeType subject targets options elapsedMs =
      { status := 200, success := true,
        images := some ((targets.filter (fun t => t.weightKg = subject.currentWeightKg)).map
          (fun t =>
            ({ label := t.label, base64 := base64,
               mimeType := BodyShapeClient.jsOrDefault
                 (options.bind BodyShapeOptions.returnMimeType) "image/png",
               width := 1024, height := 1024 } : GeneratedImage))),
        metadata := some
          { processingTimeMs := 0, confidence := 1, model := "original-image",
            note := some "No body shape change needed - returning original image",
            partialFailures := none },
        code := none, message := none } ∧
    Route.bodyShapePostHandler remote base64 mimeType subject targets options elapsedMs =
      Route.bodyShapePostHandler remote2 base64 mimeType subject targets options elapsedMs2 ∧
    BodyShapeClient.generateBodyShapeImages remote
      { imageBase64 := base64, mimeType := mimeType, subject := subject,
        targets := targets, options := options.getD BodyShapeOptions.empty } elapsedMs =
      { success := false, images := none, metadata := none,
        error := some "Body shape generation is not needed when target weight equals current weight" } := by
  refine ⟨?_, ?_, ?_⟩
  · unfold Route.bodyShapePostHandler
    rw [if_pos hmix]
  · unfold Route.bodyShapePostHandler
    rw [if_pos hmix, if_pos hmix]
  · unfold BodyShapeClient.generateBodyShapeImages
    rw [if_pos hmix]

/-- C3 amended witness: the short-circuit at the concrete mixed target set. -/
theorem C3_no_change_short_circuit_witness :
    Route.bodyShapePostHandler c3remoteOk "input-b64" "image/jpeg" c1subject c3targets none 7 =
      Route.bodyShapePostHandler c2remote "input-b64" "image/jpeg" c1subject c3targets none 11 ∧
    BodyShapeClient.generateBodyShapeImages c3remoteOk
      { imageBase64 := "input-b64", mimeType := "image/jpeg", subject := c1subject,
        targets := c3targets, options := BodyShapeOptions.empty } 7 =
      { success := false, images := none, metadata := none,
        error := some "Body shape generation is not needed when target weight equals current weight" } := by
  have h := C3_no_change_short_circuit c3remoteOk c2remote "input-b64" "image/jpeg"
    c1subject c3targets none 7 11 (by with_unfolding_all decide)
  exact ⟨h.2.1, h.2.2⟩

/-- C7: the claim quantifies over "the prompt-composition operation" for a
zero weight difference.  It holds for `generateBodyShapePrompt` in
`body-shape-client.ts` (which throws), but the GeminiClient class's
`generateBodyShapePrompt` never fails — at equal weights it returns the
"maintain" prompt string.  This counterexample evaluates the class composer
at 170 cm / 70 kg with a 70 kg target: it returns a prompt string (with
default strength 0.7, so the "significantly" adverb tier), refuting "fails
instead of returning a prompt string". -/
theorem C7_counterexample :
    GeminiClient.generateBodyShapePrompt c1subject { weightKg := 70, label := some "same" } none =
      "Transform this person's body to appear significantly current body shape with minimal adjustments.\nThe transformation should look natural, realistic, and proportional to their body frame.\nMaintain facial features, clothing, and pose exactly as shown.\nMaintain the overall scene composition while focusing on the body transformation.\nEnsure the result appears as a natural photograph with consistent lighting and shadows." := by
  with_unfolding_all rfl

/-- C7 amended: for a target weight equal to the current weight (inside the
validated height range), the `body-shape-client.ts` composer throws the
no-change error, whereas the `GeminiClient` class composer instead returns a
prompt built on the "maintain" descriptor. -/
theorem C7_zero_diff_composers (s : Subject) (t : TargetWeight)
    (opts : Option BodyShapeOptions) (hw : t.weightKg = s.currentWeightKg)
    (hh : 0 < s.heightCm) :
    BodyShapeClient.generateBodyShapePrompt s t =
      Except.error "No body shape change needed when target weight equals current weight" ∧
    strHasSub (GeminiClient.generateBodyShapePrompt s t opts)
      "current body shape with minimal adjustments" = true := by
  constructor
  · unfold BodyShapeClient.generateBodyShapePrompt
    rw [hw]
    simp
  · unfold GeminiClient.generateBodyShapePrompt
    rw [hw]
    dsimp only
    rw [sub_self]
    have hword : ∀ i : ℚ, GeminiClient.transformationWording 0 i =
        ("current body shape with minimal adjustments", "") := by
      intro i
      unfold GeminiClient.transformationWording
      rw [if_pos (by simp)]
    rw [hword]
    split_ifs <;> rfl

/-- C7 amended witness: both composer behaviours at 170 cm / 70 kg with a
70 kg target. -/
theorem C7_zero_diff_composers_witness :
    BodyShapeClient.generateBodyShapePrompt c1subject { weightKg := 70, label := some "same" } =
      Except.error "No body shape change needed when target weight equals current weight" ∧
    strHasSub (GeminiClient.generateBodyShapePrompt c1subject
      { weightKg := 70, label := some "same" } none)
      "current body shape with minimal adjustments" = true :=
  C7_zero_diff_composers c1subject { weightKg := 70, label := some "same" } none
    (by norm_num [c1subject]) (by norm_num [c1subject])

/-- C8: `resolveOptimalLocation` follows the fixed priority order with the
first match winning, and records the step that fired in `resolutionMethod`:
a non-blank explicit location is validated against the allow-list (an invalid
value fails with an error naming the offending value and listing the
supported values) and beats any geography; otherwise the colo table, then the
country table, then the continent table, then the fixed default region. -/
theorem C8_resolution_priority :
    (∀ (opts : LocationResolver.LocationResolutionOptions) (s : String),
      opts.explicitLocation = some s → trimStr s ≠ "" →
      LocationResolver.SUPPORTED_LOCATIONS.contains s = true →
      LocationResolver.resolveOptimalLocation opts =
        Except.ok { location := s, resolutionMethod := "explicit", geographicInfo := none }) ∧
    (∀ (opts : LocationResolver.LocationResolutionOptions) (s : String),
      opts.explicitLocation = some s → trimStr s ≠ "" →
      LocationResolver.SUPPORTED_LOCATIONS.contains s = false →
      LocationResolver.resolveOptimalLocation opts =
        Except.error ("Invalid Google Cloud location: " ++ s ++ ". Supported locations: " ++
          String.intercalate ", " LocationResolver.SUPPORTED_LOCATIONS)) ∧
    (∀ (opts : LocationResolver.LocationResolutionOptions),
      (opts.explicitLocation = none ∨ ∃ s, opts.explicitLocation = some s ∧ trimStr s = "") →
      LocationResolver.resolveOptimalLocation opts =
        Except.ok (LocationResolver.resolveFromGeography opts.request)) ∧
    (∀ (req : LocationResolver.RequestLike) (cf : LocationResolver.CloudflareCfObject)
        (r : String), req.cf = some cf →
      LocationResolver.truthyLookup LocationResolver.COLO_TO_VERTEX_REGION cf.colo = some r →
      LocationResolver.resolveFromGeography (some req) =
        { location := r, resolutionMethod := "colo",
          geographicInfo := some { country := cf.country, colo := cf.colo, continent := cf.continent } }) ∧
    (∀ (req : LocationResolver.RequestLike) (cf : LocationResolver.CloudflareCfObject)
        (r : String), req.cf = some cf →
      LocationResolver.truthyLookup LocationResolver.COLO_TO_VERTEX_REGION cf.colo = none →
      LocationResolver.truthyLookup LocationResolver.COUNTRY_TO_VERTEX_REGION cf.country = some r →
      LocationResolver.resolveFromGeography (some req) =
        { location := r, resolutionMethod := "country",
          geographicInfo := some { country := cf.country, colo := cf.colo, continent := cf.continent } }) ∧
    (∀ (req : LocationResolver.RequestLike) (cf : LocationResolver.CloudflareCfObject)
        (r : String), req.cf = some cf →
      LocationResolver.truthyLookup LocationResolver.COLO_TO_VERTEX_REGION cf.colo = none →
      LocationResolver.truthyLookup LocationResolver.COUNTRY_TO_VERTEX_REGION cf.country = none →
      LocationResolver.truthyLookup LocationResolver.CONTINENT_TO_VERTEX_REGION cf.continent = some r →
      LocationResolver.resolveFromGeography (some req) =
        { location := r, resolutionMethod := "continent",
          geographicInfo := some { country := cf.country, colo := cf.colo, continent := cf.continent } }) ∧
    (∀ (req : LocationResolver.RequestLike) (cf : LocationResolver.CloudflareCfObject),
      req.cf = some cf →
      LocationResolver.truthyLookup LocationResolver.COLO_TO_VERTEX_REGION cf.colo = none →
      LocationResolver.truthyLookup LocationResolver.COUNTRY_TO_VERTEX_REGION cf.country = none →
      LocationResolver.truthyLookup LocationResolver.CONTINENT_TO_VERTEX_REGION cf.continent = none →
      LocationResolver.resolveFromGeography (some req) =
        { location := LocationResolver.DEFAULT_LOCATION, resolutionMethod := "default",
          geographicInfo := none }) ∧
    LocationResolver.resolveFromGeography none =
      { location := LocationResolver.DEFAULT_LOCATION, resolutionMethod := "default",
        geographicInfo := none } := by
  refine ⟨?_, ?_, ?_, ?_, ?_, ?_, ?_, rfl⟩
  · intro opts s hexp htrim hsupp
    unfold LocationResolver.resolveOptimalLocation
    rw [hexp]
    dsimp only
    rw [if_pos htrim]
    unfold LocationResolver.validateLocation
    rw [hsupp]
    rfl
  · intro opts s hexp htrim hsupp
    unfold LocationResolver.resolveOptimalLocation
    rw [hexp]
    dsimp only
    rw [if_pos htrim]
    unfold LocationResolver.validateLocation
    rw [hsupp]
    rfl
  · intro opts hexp
    unfold LocationResolver.resolveOptimalLocation
    rcases hexp with h | ⟨s, hs, htrim⟩
    · rw [h]
    · rw [hs]
      dsimp only
      rw [if_neg (by simp [htrim])]
  · intro req cf r hcf hcolo
    unfold LocationResolver.resolveFromGeography LocationResolver.detectLocationFromCloudflare
    dsimp only
    rw [hcf]
    dsimp only
    rw [hcolo]
  · intro req cf r hcf hcolo hcountry
    unfold LocationResolver.resolveFromGeography LocationResolver.detectLocationFromCloudflare
    dsimp only
    rw [hcf]
    dsimp only
    rw [hcolo, hcountry]
  · intro req cf r hcf hcolo hcountry hcont
    unfold LocationResolver.resolveFromGeography LocationResolver.detectLocationFromCloudflare
    dsimp only
    rw [hcf]
    dsimp only
    rw [hcolo, hcountry, hcont]
  · intro req cf hcf hcolo hcountry hcont
    unfold LocationResolver.resolveFromGeography LocationResolver.detectLocationFromCloudflare
    dsimp only
    rw [hcf]
    dsimp only
    rw [hcolo, hcountry, hcont]

/-- C8 witness: "europe-west1" as explicit location wins over Japanese
geography with method "explicit"; an invalid explicit location fails with the
message naming it and listing the supported regions; without an explicit
location, the unmapped colo "XXX" with unmapped country "XX" falls back to
the continent table ("AS" → "asia-northeast1") with method "continent". -/
theorem C8_resolution_priority_witness :
    LocationResolver.resolveOptimalLocation
      { explicitLocation := some "europe-west1",
        request :=
          some { cf := some { country := some "JP", colo := some "NRT", continent := some "AS" } },
        debug := none } =
      Except.ok
        { location := "europe-west1", resolutionMethod := "explicit",
          geographicInfo := none } ∧
    LocationResolver.resolveOptimalLocation
      { explicitLocation := some "mars-north1", request := none, debug := none } =
      Except.error ("Invalid Google Cloud location: mars-north1. Supported locations: " ++
        String.intercalate ", " LocationResolver.SUPPORTED_LOCATIONS) ∧
    LocationResolver.resolveFromGeography
      (some { cf := some { country := some "XX", colo := some "XXX", continent := some "AS" } }) =
      { location := "asia-northeast1", resolutionMethod := "continent",
        geographicInfo :=
          some { country := some "XX", colo := some "XXX", continent := some "AS" } } := by
  refine ⟨?_, ?_, ?_⟩
  · exact C8_resolution_priority.1 _ "europe-west1" rfl
      (by decide) rfl
  · exact (C8_resolution_priority.2.1 _ "mars-north1" rfl
      (by decide) rfl).trans (by rfl)
  · exact C8_resolution_priority.2.2.2.2.2.1 _
      { country := some "XX", colo := some "XXX", continent := some "AS" } "asia-northeast1"
      rfl rfl rfl rfl

/-- C9: the code drops the backend-reported MIME type.  At the failing input
the backend reports `image/webp` for the returned inline image, yet the
generated image carries the caller-side fallback `image/png`
(`returnMimeType || 'image/png'`), and `GeminiClient.generateImage`'s result
contains no MIME type at all — contradicting the spec (and the repository's
own test "GeminiからのmimeTypeを優先して使用する", which expects
`image/webp` here). -/
theorem C9_backend_mime_dropped :
    BodyShapeClient.generateBodyShapeImages c9remote c9opts 5 =
      { success := true,
        images := some [{ label := some "slim", base64 := "generated-img",
                          mimeType := "image/png", width := 1024, height := 1024 }],
        metadata := some
          { processingTimeMs := 5, confidence := 1,
            model := "gemini-2.5-flash-image-preview", partialFailures := none },
        error := none } ∧
    (GeminiClient.generateImage (c9remote 0) 2 1000).1 =
      { success := true, imageBase64 := some "generated-img", error := none } := by
  constructor <;> with_unfolding_all rfl

/-- C10: with `options.seed = 0`, the class method
`GeminiClient.generateBodyShapeImages` builds its backend request with no
`generationConfig` at all (`bodyOptions?.seed ? ... : undefined` treats the
falsy 0 as unset), whereas the standalone `generateBodyShapeImages` in
`body-shape-client.ts` forwards `generationConfig = { seed: 0 }` to the
adapter (`bodyOptions?.seed !== undefined ? ... : undefined`). -/
theorem C10_seed_zero_divergence (s : Subject) (t : TargetWeight)
    (o : BodyShapeOptions) (p img mt : String) (hseed : o.seed = some 0) :
    (GeminiClient.bodyShapeRequestPayload s t o img mt).generationConfig = none ∧
    (BodyShapeClient.geminiImageCallArgs p img mt o).generationConfig =
      some { seed := some 0 } := by
  constructor
  · unfold GeminiClient.bodyShapeRequestPayload
    rw [hseed]
    simp
  · unfold BodyShapeClient.geminiImageCallArgs
    rw [hseed]
    simp

/-- C10 witness: the two seed treatments at a concrete request with
`seed = 0`. -/
theorem C10_seed_zero_divergence_witness :
    (GeminiClient.bodyShapeRequestPayload c1subject { weightKg := 60, label := some "slim" }
      { returnMimeType := none, preserveBackground := none, seed := some 0, strength := none }
      "input-b64" "image/jpeg").generationConfig = none ∧
    (BodyShapeClient.geminiImageCallArgs "prompt-text" "input-b64" "image/jpeg"
      { returnMimeType := none, preserveBackground := none, seed := some 0,
        strength := none }).generationConfig = some { seed := some 0 } :=
  C10_seed_zero_divergence c1subject { weightKg := 60, label := some "slim" }
    { returnMimeType := none, preserveBackground := none, seed := some 0, strength := none }
    "prompt-text" "input-b64" "image/jpeg" rfl

end Slimoro
